import Mathlib

/-!
# Wallet-Persona — verification of the feature/classification/scoring core

Shallow embedding of the `swaya2303/Wallet-Persona` backend
(`backend/models/classifier.py`, `backend/api/router.py`) and proofs about it.

Python floats are modelled as rationals (`ℚ`), Python runtime values as the
inductive `PyVal`, and raised exceptions as `Except PyErr`.
-/

namespace WalletPersona

/-! ## Numeric feature vectors

`WalletClassifier._extract_features` returns a dict of features.  For
well-typed wallet data every field is numeric; `Features` is that well-typed
case, used by the classifier, the scorer and the confidence estimator. -/

/-- The numeric feature vector produced by `WalletClassifier._extract_features`
for well-typed wallet data (all fields numeric). -/
structure Features where
  transaction_count : ℚ
  token_count : ℚ
  nft_count : ℚ
  activity_recency : ℚ
  token_diversity : ℚ
  nft_focus : ℚ
  dao_engagement : ℚ
  defi_engagement : ℚ
  avg_tx_value : ℚ
  tx_frequency : ℚ
deriving DecidableEq

/-- `WalletClassifier._rule_based_classification` (classifier.py lines 129-156):
five rules tried in order, first match wins. -/
def ruleBasedClassification (f : Features) : String :=
  if f.transaction_count < 5 ∨ f.activity_recency < 1/100 then "Dormant/Inactive"
  else if f.nft_count > 10 ∧ f.nft_focus > 1/2 then "NFT Collector"
  else if f.dao_engagement > 1/10 then "DAO Member"
  else if f.tx_frequency > 5 ∧ f.avg_tx_value > 1 then "Degen Trader"
  else "Investor"

/-- `WalletClassifier.calculate_wallet_scores` (classifier.py lines 158-194):
returns `(risk_score, health_score)`, each clamped to `[0, 100]`. -/
def calculateWalletScores (f : Features) : ℚ × ℚ :=
  let risk_score := f.tx_frequency * 5 + min (f.avg_tx_value * 10) 50
      + (1 - f.token_diversity) * 20 + f.activity_recency * 20
  let health_score := min (f.transaction_count / 10) 30 + f.token_diversity * 20
      + f.dao_engagement * 30 + (1 - f.activity_recency) * 20
  (min (max risk_score 0) 100, min (max health_score 0) 100)

/-! ## Confidence estimator (classifier.py lines 216-245) -/

/-- The `confidence_scores` dict: one entry per persona label. -/
structure ConfidenceScores where
  investor : ℚ
  nftCollector : ℚ
  daoMember : ℚ
  degenTrader : ℚ
  dormant : ℚ
deriving DecidableEq

/-- Sum of the five entries (`sum(confidence_scores.values())`). -/
def ConfidenceScores.total (c : ConfidenceScores) : ℚ :=
  c.investor + c.nftCollector + c.daoMember + c.degenTrader + c.dormant

/-- Dict lookup `confidence_scores[label]`; `none` models a `KeyError`. -/
def ConfidenceScores.get? (c : ConfidenceScores) : String → Option ℚ
  | "Investor" => some c.investor
  | "NFT Collector" => some c.nftCollector
  | "DAO Member" => some c.daoMember
  | "Degen Trader" => some c.degenTrader
  | "Dormant/Inactive" => some c.dormant
  | _ => none

/-- The four additive adjustments of `classify_wallet`, starting from the
uniform `0.2` prior; the propositions are the four feature conditions
(`nft_focus > 0.5`, `dao_engagement > 0.1`, `tx_frequency > 5`,
`activity_recency < 0.01`), evaluated independently. -/
def confAdjust (nftFocusHigh daoHigh freqHigh recencyLow : Prop)
    [Decidable nftFocusHigh] [Decidable daoHigh] [Decidable freqHigh]
    [Decidable recencyLow] : ConfidenceScores :=
  let c : ConfidenceScores := ⟨1/5, 1/5, 1/5, 1/5, 1/5⟩
  let c := if nftFocusHigh then
      { c with nftCollector := c.nftCollector + 3/10, investor := c.investor - 1/10 } else c
  let c := if daoHigh then
      { c with daoMember := c.daoMember + 3/10, dormant := c.dormant - 1/10 } else c
  let c := if freqHigh then
      { c with degenTrader := c.degenTrader + 3/10, dormant := c.dormant - 1/10 } else c
  let c := if recencyLow then
      { c with dormant := c.dormant + 1/2,
               investor := c.investor - 1/10, nftCollector := c.nftCollector - 1/10,
               daoMember := c.daoMember - 1/10, degenTrader := c.degenTrader - 1/10 } else c
  c

/-- Pre-normalization confidence scores for a feature vector. -/
def confidencePre (f : Features) : ConfidenceScores :=
  confAdjust (f.nft_focus > 1/2) (f.dao_engagement > 1/10)
    (f.tx_frequency > 5) (f.activity_recency < 1/100)

/-- Python's `round` on an exact rational: round half to even. -/
def pyRound (x : ℚ) : ℤ :=
  let n := ⌊x⌋
  let r := x - n
  if r < 1/2 then n
  else if 1/2 < r then n + 1
  else if 2 ∣ n then n else n + 1

/-- `round(x, 2)`: round to two decimal places. -/
def round2 (x : ℚ) : ℚ := (pyRound (x * 100) : ℚ) / 100

/-- The normalization loop of `classify_wallet` (lines 242-245):
`round(v / total * 100, 2)` applied to each entry. -/
def normalizeConf (c : ConfidenceScores) : ConfidenceScores :=
  let t := c.total
  ⟨round2 (c.investor / t * 100), round2 (c.nftCollector / t * 100),
   round2 (c.daoMember / t * 100), round2 (c.degenTrader / t * 100),
   round2 (c.dormant / t * 100)⟩

/-- The `all_types_confidence` mapping returned by `classify_wallet`. -/
def allTypesConfidence (f : Features) : ConfidenceScores :=
  normalizeConf (confidencePre f)

/-- The `confidence` field of the classification result:
`confidence_scores[wallet_type]` for the rule-based label. -/
def winningConfidence (f : Features) : Option ℚ :=
  (allTypesConfidence f).get? (ruleBasedClassification f)

/-! ## First theorems -/

/-- The spec's ordered rule table (one guard/label pair per rule, the last
one a catch-all), written independently of `ruleBasedClassification` to
state the first-match-wins contract. -/
def specRuleTable : List ((Features → Bool) × String) :=
  [(fun f => decide (f.transaction_count < 5) || decide (f.activity_recency < 1/100),
    "Dormant/Inactive"),
   (fun f => decide (f.nft_count > 10) && decide (f.nft_focus > 1/2), "NFT Collector"),
   (fun f => decide (f.dao_engagement > 1/10), "DAO Member"),
   (fun f => decide (f.tx_frequency > 5) && decide (f.avg_tx_value > 1), "Degen Trader"),
   (fun _ => true, "Investor")]

/-- First-match evaluation of an ordered rule table. -/
def firstMatchLabel : List ((Features → Bool) × String) → Features → String
  | [], _ => "Investor"
  | (cond, label) :: rest, f => if cond f then label else firstMatchLabel rest f

/-- **C1.** The classifier is exactly first-match evaluation of the five
rules in priority order, and any feature vector with
`transaction_count < 5` or `activity_recency < 0.01` is labeled
"Dormant/Inactive" regardless of all other features. -/
theorem rule_priority_dormant_first (f : Features) :
    ruleBasedClassification f = firstMatchLabel specRuleTable f
    ∧ ((f.transaction_count < 5 ∨ f.activity_recency < 1/100) →
        ruleBasedClassification f = "Dormant/Inactive") := by
  constructor
  · simp only [ruleBasedClassification, firstMatchLabel, specRuleTable,
      Bool.or_eq_true, Bool.and_eq_true, decide_eq_true_eq]
    split_ifs <;> rfl
  · intro h
    unfold ruleBasedClassification
    rw [if_pos h]

/-- Witness for C1: the spec's example, `transaction_count = 2`,
`nft_count = 20`, `nft_focus = 0.9` (recent activity), is labeled
Dormant/Inactive, not NFT Collector. -/
theorem rule_priority_dormant_first_witness :
    ruleBasedClassification
      { transaction_count := 2, token_count := 2, nft_count := 20,
        activity_recency := 1/2, token_diversity := 1, nft_focus := 9/10,
        dao_engagement := 0, defi_engagement := 0, avg_tx_value := 0,
        tx_frequency := 0 } = "Dormant/Inactive" ∧
    "Dormant/Inactive" ≠ "NFT Collector" :=
  ⟨(rule_priority_dormant_first _).2 (Or.inl (by norm_num)), by decide⟩

/-- **C2.** The risk and health scores are the stated weighted sums clamped to
`[0,100]`, and both returned scores lie in `[0,100]` inclusive. -/
theorem wallet_scores_formula_and_bounds (f : Features) :
    (calculateWalletScores f).1
        = min (max (5 * f.tx_frequency + min (10 * f.avg_tx_value) 50
            + 20 * (1 - f.token_diversity) + 20 * f.activity_recency) 0) 100
    ∧ (calculateWalletScores f).2
        = min (max (min (f.transaction_count / 10) 30 + 20 * f.token_diversity
            + 30 * f.dao_engagement + 20 * (1 - f.activity_recency)) 0) 100
    ∧ 0 ≤ (calculateWalletScores f).1 ∧ (calculateWalletScores f).1 ≤ 100
    ∧ 0 ≤ (calculateWalletScores f).2 ∧ (calculateWalletScores f).2 ≤ 100 := by
  unfold calculateWalletScores
  refine ⟨?_, ?_, ?_, ?_, ?_, ?_⟩
  · have h : f.tx_frequency * 5 + min (f.avg_tx_value * 10) 50
        + (1 - f.token_diversity) * 20 + f.activity_recency * 20
        = 5 * f.tx_frequency + min (10 * f.avg_tx_value) 50
        + 20 * (1 - f.token_diversity) + 20 * f.activity_recency := by
      rw [mul_comm f.avg_tx_value 10]; ring
    simp only [h]
  · have h : min (f.transaction_count / 10) 30 + f.token_diversity * 20
        + f.dao_engagement * 30 + (1 - f.activity_recency) * 20
        = min (f.transaction_count / 10) 30 + 20 * f.token_diversity
        + 30 * f.dao_engagement + 20 * (1 - f.activity_recency) := by ring
    simp only [h]
  · exact le_min (le_max_right _ 0) (by norm_num)
  · exact min_le_right _ 100
  · exact le_min (le_max_right _ 0) (by norm_num)
  · exact min_le_right _ 100

/-- The rule-based label is always one of the five persona labels. -/
lemma ruleBasedClassification_cases (f : Features) :
    ruleBasedClassification f = "Dormant/Inactive" ∨
    ruleBasedClassification f = "NFT Collector" ∨
    ruleBasedClassification f = "DAO Member" ∨
    ruleBasedClassification f = "Degen Trader" ∨
    ruleBasedClassification f = "Investor" := by
  unfold ruleBasedClassification
  split_ifs <;> simp

/-- The rounding error of `pyRound` is at most one half. -/
lemma abs_pyRound_sub_le (y : ℚ) : |(pyRound y : ℚ) - y| ≤ 1/2 := by
  have h0 : (⌊y⌋ : ℚ) ≤ y := Int.floor_le y
  have h1 : y < ⌊y⌋ + 1 := Int.lt_floor_add_one y
  unfold pyRound
  dsimp only
  split_ifs with hc1 hc2 hc3 <;> rw [abs_sub_le_iff] <;> constructor <;> push_cast <;> linarith

/-- The rounding error of `round2` is at most `1/200`. -/
lemma abs_round2_sub_le (x : ℚ) : |round2 x - x| ≤ 1/200 := by
  have h := abs_pyRound_sub_le (x * 100)
  have hx : round2 x - x = ((pyRound (x * 100) : ℚ) - x * 100) / 100 := by
    unfold round2; ring
  rw [hx, abs_div]
  rw [show |(100 : ℚ)| = 100 by norm_num]
  linarith

/-- `round2` keeps values of `[0, 100]` inside `[0, 100]`. -/
lemma round2_bounds {x : ℚ} (h0 : 0 ≤ x) (h1 : x ≤ 100) :
    0 ≤ round2 x ∧ round2 x ≤ 100 := by
  have h := abs_pyRound_sub_le (x * 100)
  rw [abs_sub_le_iff] at h
  have hlow : (0 : ℤ) ≤ pyRound (x * 100) := by
    by_contra hneg
    push_neg at hneg
    have : pyRound (x * 100) ≤ -1 := by omega
    have : (pyRound (x * 100) : ℚ) ≤ -1 := by exact_mod_cast this
    linarith [h.1, h.2]
  have hhigh : pyRound (x * 100) ≤ 10000 := by
    by_contra hbig
    push_neg at hbig
    have : (10001 : ℤ) ≤ pyRound (x * 100) := by omega
    have : (10001 : ℚ) ≤ (pyRound (x * 100) : ℚ) := by exact_mod_cast this
    linarith [h.1, h.2]
  have hlowQ : (0 : ℚ) ≤ (pyRound (x * 100) : ℚ) := by exact_mod_cast hlow
  have hhighQ : (pyRound (x * 100) : ℚ) ≤ 10000 := by exact_mod_cast hhigh
  unfold round2
  constructor <;> linarith

/-- Nonnegativity of every pre-normalization confidence entry. -/
lemma confAdjust_nonneg (p1 p2 p3 p4 : Prop)
    [Decidable p1] [Decidable p2] [Decidable p3] [Decidable p4] :
    0 ≤ (confAdjust p1 p2 p3 p4).investor ∧ 0 ≤ (confAdjust p1 p2 p3 p4).nftCollector ∧
    0 ≤ (confAdjust p1 p2 p3 p4).daoMember ∧ 0 ≤ (confAdjust p1 p2 p3 p4).degenTrader ∧
    0 ≤ (confAdjust p1 p2 p3 p4).dormant := by
  unfold confAdjust
  split_ifs <;> norm_num

/-- The pre-normalization confidence total is at least 1. -/
lemma confAdjust_total_ge_one (p1 p2 p3 p4 : Prop)
    [Decidable p1] [Decidable p2] [Decidable p3] [Decidable p4] :
    1 ≤ (confAdjust p1 p2 p3 p4).total := by
  unfold confAdjust ConfidenceScores.total
  split_ifs <;> norm_num

/-- **C3.** The five normalized confidence values, each rounded to two
decimals, sum to 100 within ±0.1. -/
theorem all_types_confidence_sums_to_100 (f : Features) :
    |(allTypesConfidence f).total - 100| ≤ 1/10 := by
  have htot := confAdjust_total_ge_one (f.nft_focus > 1/2) (f.dao_engagement > 1/10)
    (f.tx_frequency > 5) (f.activity_recency < 1/100)
  set c := confidencePre f with hc
  have htot' : 1 ≤ c.total := htot
  have ht0 : c.total ≠ 0 := by linarith
  have hsum : c.investor / c.total * 100 + c.nftCollector / c.total * 100
      + c.daoMember / c.total * 100 + c.degenTrader / c.total * 100
      + c.dormant / c.total * 100 = 100 := by
    have : c.total = c.investor + c.nftCollector + c.daoMember + c.degenTrader + c.dormant :=
      rfl
    field_simp
    linarith [this]
  have d1 := abs_round2_sub_le (c.investor / c.total * 100)
  have d2 := abs_round2_sub_le (c.nftCollector / c.total * 100)
  have d3 := abs_round2_sub_le (c.daoMember / c.total * 100)
  have d4 := abs_round2_sub_le (c.degenTrader / c.total * 100)
  have d5 := abs_round2_sub_le (c.dormant / c.total * 100)
  rw [abs_sub_le_iff] at d1 d2 d3 d4 d5
  have hval : (allTypesConfidence f).total
      = round2 (c.investor / c.total * 100) + round2 (c.nftCollector / c.total * 100)
      + round2 (c.daoMember / c.total * 100) + round2 (c.degenTrader / c.total * 100)
      + round2 (c.dormant / c.total * 100) := rfl
  rw [hval, abs_sub_le_iff]
  constructor <;> linarith

/-- **C10.** For every feature vector the pre-normalization confidence values
are non-negative and total at least 1, so normalization is well-defined, and
every normalized entry — including the returned winning-label confidence —
lies in `[0, 100]`. -/
theorem confidence_distribution_invariants (f : Features) :
    (0 ≤ (confidencePre f).investor ∧ 0 ≤ (confidencePre f).nftCollector ∧
     0 ≤ (confidencePre f).daoMember ∧ 0 ≤ (confidencePre f).degenTrader ∧
     0 ≤ (confidencePre f).dormant)
    ∧ 1 ≤ (confidencePre f).total
    ∧ ((0 ≤ (allTypesConfidence f).investor ∧ (allTypesConfidence f).investor ≤ 100) ∧
       (0 ≤ (allTypesConfidence f).nftCollector ∧ (allTypesConfidence f).nftCollector ≤ 100) ∧
       (0 ≤ (allTypesConfidence f).daoMember ∧ (allTypesConfidence f).daoMember ≤ 100) ∧
       (0 ≤ (allTypesConfidence f).degenTrader ∧ (allTypesConfidence f).degenTrader ≤ 100) ∧
       (0 ≤ (allTypesConfidence f).dormant ∧ (allTypesConfidence f).dormant ≤ 100))
    ∧ ∃ q, winningConfidence f = some q ∧ 0 ≤ q ∧ q ≤ 100 := by
  have hnn := confAdjust_nonneg (f.nft_focus > 1/2) (f.dao_engagement > 1/10)
    (f.tx_frequency > 5) (f.activity_recency < 1/100)
  have htot := confAdjust_total_ge_one (f.nft_focus > 1/2) (f.dao_engagement > 1/10)
    (f.tx_frequency > 5) (f.activity_recency < 1/100)
  set c := confidencePre f with hc
  have hnn' : 0 ≤ c.investor ∧ 0 ≤ c.nftCollector ∧ 0 ≤ c.daoMember ∧
      0 ≤ c.degenTrader ∧ 0 ≤ c.dormant := hnn
  have htot' : 1 ≤ c.total := htot
  obtain ⟨hv1, hv2, hv3, hv4, hv5⟩ := hnn'
  have hts : c.total = c.investor + c.nftCollector + c.daoMember + c.degenTrader + c.dormant :=
    rfl
  have hx : ∀ v : ℚ, 0 ≤ v → v ≤ c.total →
      0 ≤ round2 (v / c.total * 100) ∧ round2 (v / c.total * 100) ≤ 100 := by
    intro v hv0 hvt
    have htpos : (0 : ℚ) < c.total := by linarith
    have h0 : 0 ≤ v / c.total * 100 := by positivity
    have h1 : v / c.total * 100 ≤ 100 := by
      have hle : v / c.total ≤ 1 := (div_le_one htpos).mpr hvt
      linarith
    exact round2_bounds h0 h1
  have h1 := hx c.investor hv1 (by linarith)
  have h2 := hx c.nftCollector hv2 (by linarith)
  have h3 := hx c.daoMember hv3 (by linarith)
  have h4 := hx c.degenTrader hv4 (by linarith)
  have h5 := hx c.dormant hv5 (by linarith)
  have hA1 : (allTypesConfidence f).investor = round2 (c.investor / c.total * 100) := rfl
  have hA2 : (allTypesConfidence f).nftCollector = round2 (c.nftCollector / c.total * 100) := rfl
  have hA3 : (allTypesConfidence f).daoMember = round2 (c.daoMember / c.total * 100) := rfl
  have hA4 : (allTypesConfidence f).degenTrader = round2 (c.degenTrader / c.total * 100) := rfl
  have hA5 : (allTypesConfidence f).dormant = round2 (c.dormant / c.total * 100) := rfl
  refine ⟨⟨hv1, hv2, hv3, hv4, hv5⟩, htot',
    ⟨by rw [hA1]; exact h1, by rw [hA2]; exact h2, by rw [hA3]; exact h3,
     by rw [hA4]; exact h4, by rw [hA5]; exact h5⟩, ?_⟩
  rcases ruleBasedClassification_cases f with h | h | h | h | h <;>
    · rw [winningConfidence, h]
      simp only [ConfidenceScores.get?]
      refine ⟨_, rfl, ?_⟩
      first
        | exact h1 | exact h2 | exact h3 | exact h4 | exact h5

/-- Evaluating `round2` when the scaled value rounds down. -/
lemma round2_eq_down {x : ℚ} {n : ℤ} (h1 : (n : ℚ) ≤ x * 100) (h2 : x * 100 < n + 1/2) :
    round2 x = (n : ℚ) / 100 := by
  have hfl : ⌊x * 100⌋ = n := by
    rw [Int.floor_eq_iff]
    exact ⟨h1, by linarith⟩
  simp only [round2, pyRound]
  rw [hfl, if_pos (show x * 100 - (n : ℚ) < 1/2 by linarith)]

/-- Evaluating `round2` when the scaled value rounds up. -/
lemma round2_eq_up {x : ℚ} {n : ℤ} (h1 : (n : ℚ) - 1/2 < x * 100) (h2 : x * 100 < n) :
    round2 x = (n : ℚ) / 100 := by
  have hfl : ⌊x * 100⌋ = n - 1 := by
    rw [Int.floor_eq_iff]
    refine ⟨by push_cast; linarith, by push_cast; linarith⟩
  simp only [round2, pyRound]
  rw [hfl]
  rw [if_neg (show ¬(x * 100 - ((n - 1 : ℤ) : ℚ) < 1/2) by push_cast; linarith)]
  rw [if_pos (show (1/2 : ℚ) < x * 100 - ((n - 1 : ℤ) : ℚ) by push_cast; linarith)]
  push_cast
  ring

/-- A feature vector witnessing the rule-label / confidence-distribution
mismatch: dormant by transaction count, but recently active with a high NFT
focus. -/
def mismatchFeatures : Features :=
  { transaction_count := 2, token_count := 2, nft_count := 5,
    activity_recency := 1/2, token_diversity := 1, nft_focus := 9/10,
    dao_engagement := 0, defi_engagement := 0, avg_tx_value := 0,
    tx_frequency := 0 }

/-- **C9.** The rule-based label can differ from the label with the largest
confidence share: `mismatchFeatures` is labeled Dormant/Inactive while
NFT Collector receives the strictly largest share. -/
theorem rule_label_confidence_mismatch :
    ruleBasedClassification mismatchFeatures = "Dormant/Inactive"
    ∧ "Dormant/Inactive" ≠ "NFT Collector"
    ∧ (allTypesConfidence mismatchFeatures).nftCollector
        > (allTypesConfidence mismatchFeatures).investor
    ∧ (allTypesConfidence mismatchFeatures).nftCollector
        > (allTypesConfidence mismatchFeatures).daoMember
    ∧ (allTypesConfidence mismatchFeatures).nftCollector
        > (allTypesConfidence mismatchFeatures).degenTrader
    ∧ (allTypesConfidence mismatchFeatures).nftCollector
        > (allTypesConfidence mismatchFeatures).dormant := by
  have hpre : confidencePre mismatchFeatures = ⟨1/10, 1/2, 1/5, 1/5, 1/5⟩ := by
    unfold confidencePre confAdjust mismatchFeatures
    norm_num
  have e1 : round2 ((25 : ℚ)/3) = ((833 : ℤ) : ℚ) / 100 :=
    round2_eq_down (by norm_num) (by norm_num)
  have e2 : round2 ((125 : ℚ)/3) = ((4167 : ℤ) : ℚ) / 100 :=
    round2_eq_up (by norm_num) (by norm_num)
  have e3 : round2 ((50 : ℚ)/3) = ((1667 : ℤ) : ℚ) / 100 :=
    round2_eq_up (by norm_num) (by norm_num)
  have hconf : allTypesConfidence mismatchFeatures
      = ⟨833/100, 4167/100, 1667/100, 1667/100, 1667/100⟩ := by
    rw [allTypesConfidence, hpre]
    unfold normalizeConf ConfidenceScores.total
    norm_num [e1, e2, e3]
  have hlabel : ruleBasedClassification mismatchFeatures = "Dormant/Inactive" := by
    unfold ruleBasedClassification mismatchFeatures
    norm_num
  refine ⟨hlabel, by simp, ?_, ?_, ?_, ?_⟩ <;> rw [hconf] <;> norm_num

/-! ## Python runtime values

The router and the feature extractor receive dynamically typed dicts.
`PyVal` models the Python values that flow through them, `PyErr` the
exceptions the modelled operations can raise. -/

/-- Exception classes raised by the modelled Python operations. -/
inductive PyErr where
  | typeError
  | valueError
  | zeroDivisionError
  | attributeError
  | keyError
  | indexError
deriving DecidableEq

/-- Python runtime values: ints, floats (as exact rationals), strings,
lists, string-keyed dicts and `None`. -/
inductive PyVal where
  | vInt : ℤ → PyVal
  | vFloat : ℚ → PyVal
  | vStr : String → PyVal
  | vList : List PyVal → PyVal
  | vDict : List (String × PyVal) → PyVal
  | vNone : PyVal
deriving Inhabited

/-- Numeric view of a value (Python ints and floats). -/
def PyVal.toNum : PyVal → Option ℚ
  | .vInt n => some (n : ℚ)
  | .vFloat q => some q
  | _ => none

/-- First binding of a key in a dict's entry list. -/
def dictLookup : List (String × PyVal) → String → Option PyVal
  | [], _ => none
  | (k, v) :: rest, key => if k = key then some v else dictLookup rest key

/-- `obj.get(key, default)`: `AttributeError` when `obj` is not a dict. -/
def PyVal.get : PyVal → String → PyVal → Except PyErr PyVal
  | .vDict es, key, dflt => .ok ((dictLookup es key).getD dflt)
  | _, _, _ => .error .attributeError

/-- Python `+`: numeric addition (int + int stays int), string and list
concatenation, otherwise `TypeError`. -/
def pyAdd : PyVal → PyVal → Except PyErr PyVal
  | .vInt a, .vInt b => .ok (.vInt (a + b))
  | .vStr s, .vStr t => .ok (.vStr (s ++ t))
  | .vList xs, .vList ys => .ok (.vList (xs ++ ys))
  | a, b =>
    match a.toNum, b.toNum with
    | some x, some y => .ok (.vFloat (x + y))
    | _, _ => .error .typeError

/-- Python `/` (true division): float result, `ZeroDivisionError` on a zero
divisor, `TypeError` on non-numeric operands. -/
def pyDiv (a b : PyVal) : Except PyErr ℚ :=
  match a.toNum, b.toNum with
  | some x, some y => if y = 0 then .error .zeroDivisionError else .ok (x / y)
  | _, _ => .error .typeError

/-- Python `max(a, b)`: the larger argument (the first on ties), `TypeError`
on incomparable operands. -/
def pyMax (a b : PyVal) : Except PyErr PyVal :=
  match a.toNum, b.toNum with
  | some x, some y => .ok (if x < y then b else a)
  | _, _ =>
    match a, b with
    | .vStr s, .vStr t => .ok (if s < t then b else a)
    | _, _ => .error .typeError

/-- Python `a < b`: `TypeError` on incomparable operands. -/
def pyLt (a b : PyVal) : Except PyErr Bool :=
  match a.toNum, b.toNum with
  | some x, some y => .ok (decide (x < y))
  | _, _ =>
    match a, b with
    | .vStr s, .vStr t => .ok (decide (s < t))
    | _, _ => .error .typeError

/-- Python `a > b`: `TypeError` on incomparable operands. -/
def pyGt (a b : PyVal) : Except PyErr Bool :=
  match a.toNum, b.toNum with
  | some x, some y => .ok (decide (y < x))
  | _, _ =>
    match a, b with
    | .vStr s, .vStr t => .ok (decide (t < s))
    | _, _ => .error .typeError

/-- Value of a digit string (`none` if any character is not a digit). -/
def digitsVal (cs : List Char) : Option ℕ :=
  if cs.all Char.isDigit then some (cs.foldl (fun a c => a * 10 + (c.toNat - 48)) 0)
  else none

/-- Decimal-string parser backing `float(str)`: optional sign, digits,
optional fractional part. (Scientific notation is not modelled; the data the
repository feeds this path is decimal wei strings.) -/
def parseDecimal (s : String) : Option ℚ :=
  let (sign, body) :=
    if s.startsWith "-" then ((-1 : ℚ), s.drop 1)
    else if s.startsWith "+" then ((1 : ℚ), s.drop 1)
    else ((1 : ℚ), s)
  match body.splitOn "." with
  | [ip] =>
    if ip.isEmpty then none
    else (digitsVal ip.data).map (fun n => sign * (n : ℚ))
  | [ip, fp] =>
    if ip.isEmpty ∧ fp.isEmpty then none
    else
      match digitsVal ip.data, digitsVal fp.data with
      | some n, some m => some (sign * ((n : ℚ) + (m : ℚ) / (10 : ℚ) ^ fp.length))
      | _, _ => none
  | _ => none

/-- Integer-string parser backing `int(str)`: optional sign, digits only. -/
def parseIntStr (s : String) : Option ℤ :=
  let (sign, body) :=
    if s.startsWith "-" then ((-1 : ℤ), s.drop 1)
    else if s.startsWith "+" then ((1 : ℤ), s.drop 1)
    else ((1 : ℤ), s)
  if body.isEmpty then none
  else (digitsVal body.data).map (fun n => sign * (n : ℤ))

/-- Truncation toward zero, as Python `int(float)` does. -/
def ratTrunc (q : ℚ) : ℤ := if 0 ≤ q then ⌊q⌋ else -⌊-q⌋

/-- Python `float(x)`: `ValueError` on an unparsable string, `TypeError` on
non-numeric non-string values. -/
def pyFloat : PyVal → Except PyErr ℚ
  | .vInt n => .ok (n : ℚ)
  | .vFloat q => .ok q
  | .vStr s =>
    match parseDecimal s with
    | some q => .ok q
    | none => .error .valueError
  | _ => .error .typeError

/-- Python `int(x)`: truncates floats, parses integer strings. -/
def pyInt : PyVal → Except PyErr ℤ
  | .vInt n => .ok n
  | .vFloat q => .ok (ratTrunc q)
  | .vStr s =>
    match parseIntStr s with
    | some n => .ok n
    | none => .error .valueError
  | _ => .error .typeError

/-- Python `len(x)`: lists, strings and dicts are sized. -/
def pyLen : PyVal → Except PyErr ℕ
  | .vList xs => .ok xs.length
  | .vStr s => .ok s.length
  | .vDict es => .ok es.length
  | _ => .error .typeError

/-- Python `for x in obj`: list elements, string characters, dict keys. -/
def pyIter : PyVal → Except PyErr (List PyVal)
  | .vList xs => .ok xs
  | .vStr s => .ok (s.data.map (fun c => .vStr (String.mk [c])))
  | .vDict es => .ok (es.map (fun kv => .vStr kv.1))
  | _ => .error .typeError

/-- Python `obj[i]` for an integer index (negative indices count from the
end); `IndexError` when out of range, `KeyError` on a dict. -/
def pyIndex : PyVal → ℤ → Except PyErr PyVal
  | .vList xs, i =>
    let j := if i < 0 then i + xs.length else i
    if j < 0 then .error .indexError
    else
      match xs.get? j.toNat with
      | some v => .ok v
      | none => .error .indexError
  | .vStr s, i =>
    let j := if i < 0 then i + s.length else i
    if j < 0 then .error .indexError
    else
      match s.data.get? j.toNat with
      | some c => .ok (.vStr (String.mk [c]))
      | none => .error .indexError
  | .vDict _, _ => .error .keyError
  | _, _ => .error .typeError

/-- `try: ... except (kinds): return dflt` around a computation. -/
def pyCatch {α : Type} (kinds : List PyErr) (dflt : α) :
    Except PyErr α → Except PyErr α
  | .ok a => .ok a
  | .error e => if e ∈ kinds then .ok dflt else .error e

/-- Left-to-right effectful map, aborting at the first raised exception
(the evaluation order of a Python list comprehension). -/
def mapExcept (f : PyVal → Except PyErr ℚ) : List PyVal → Except PyErr (List ℚ)
  | [] => .ok []
  | x :: xs => do
    let y ← f x
    let ys ← mapExcept f xs
    pure (y :: ys)

/-- `Except.getD`: result of a fully guarded block. -/
def exceptGetD {α : Type} (x : Except PyErr α) (dflt : α) : α :=
  match x with
  | .ok a => a
  | .error _ => dflt

/-! ## `_extract_features` on dynamically typed wallet data

The count fields are passed through exactly as found (possibly non-numeric);
every derived field is guarded and always a float. -/

/-- Output schema of `_extract_features` on raw wallet data. -/
structure RawFeatures where
  transaction_count : PyVal
  token_count : PyVal
  nft_count : PyVal
  activity_recency : ℚ
  token_diversity : ℚ
  nft_focus : ℚ
  dao_engagement : ℚ
  defi_engagement : ℚ
  avg_tx_value : ℚ
  tx_frequency : ℚ

/-- One element of the comprehension
`[float(tx.get("value", 0)) / 1e18 for tx in transactions]`
(classifier.py line 83). -/
def avgTxStep (tx : PyVal) : Except PyErr ℚ := do
  let v ← tx.get "value" (.vInt 0)
  let q ← pyFloat v
  pure (q / 1000000000000000000)

/-- The comprehension above followed by `sum(...) / max(len(...), 1)`
(classifier.py lines 82-86). -/
def avgTxValueBody (transactions : PyVal) : Except PyErr ℚ := do
  let items ← pyIter transactions
  let vals ← mapExcept avgTxStep items
  pure (vals.foldl (· + ·) 0 / ((max vals.length 1 : ℕ) : ℚ))

/-- The transaction-frequency block (classifier.py lines 89-101): any raised
exception — the inner tuple or the enclosing `except Exception` — makes the
caller fall back to `0.0`. -/
def txFrequencyBody (transactions : PyVal) : Except PyErr ℚ := do
  let n ← pyLen transactions
  if 2 ≤ n then do
    let lastEl ← pyIndex transactions (-1)
    let firstEl ← pyIndex transactions 0
    let firstTs ← pyInt (← lastEl.get "timeStamp" (.vInt 0))
    let lastTs ← pyInt (← firstEl.get "timeStamp" (.vInt 0))
    let timeSpanDays := max ((((lastTs - firstTs : ℤ)) : ℚ) / 86400) 1
    pure ((n : ℚ) / timeSpanDays)
  else
    pure 0

/-- The body of `_extract_features` (classifier.py lines 38-101); a raised
exception here is what the outer `except` at line 102 catches. -/
def extractFeaturesBody (wd : PyVal) : Except PyErr RawFeatures := do
  let txCount ← wd.get "transaction_count" (.vInt 0)
  let tokenCount ← wd.get "token_count" (.vInt 0)
  let nftCount ← wd.get "nft_count" (.vInt 0)
  let daysSinceTx ← wd.get "days_since_last_transaction" (.vInt 365)
  let defiCount ← wd.get "defi_interaction_count" (.vInt 0)
  let daoCount ← wd.get "dao_vote_count" (.vInt 0)
  let activityRecency ← pyCatch [.zeroDivisionError, .typeError] 0 (do
      let s ← pyAdd (.vFloat 1) daysSinceTx
      pyDiv (.vFloat 1) s)
  let tokenDiversity ← pyCatch [.zeroDivisionError, .typeError] 0 (do
      let m ← pyMax txCount (.vInt 1)
      pyDiv tokenCount m)
  let nftFocus ← pyCatch [.zeroDivisionError, .typeError] 0 (do
      let s ← pyAdd tokenCount nftCount
      let m ← pyMax s (.vInt 1)
      pyDiv nftCount m)
  let daoEngagement ← pyCatch [.zeroDivisionError, .typeError] 0 (do
      let m ← pyMax txCount (.vInt 1)
      pyDiv daoCount m)
  let defiEngagement ← pyCatch [.zeroDivisionError, .typeError] 0 (do
      let m ← pyMax txCount (.vInt 1)
      pyDiv defiCount m)
  let transactions ← wd.get "transactions" (.vList [])
  let avgTxValue ← pyCatch [.zeroDivisionError, .typeError, .valueError] 0
      (avgTxValueBody transactions)
  let txFrequency := exceptGetD (txFrequencyBody transactions) 0
  pure { transaction_count := txCount, token_count := tokenCount, nft_count := nftCount,
         activity_recency := activityRecency, token_diversity := tokenDiversity,
         nft_focus := nftFocus, dao_engagement := daoEngagement,
         defi_engagement := defiEngagement, avg_tx_value := avgTxValue,
         tx_frequency := txFrequency }

/-- The defaults assigned by the `except` branch of `_extract_features`
(classifier.py lines 102-114). -/
def defaultRawFeatures : RawFeatures :=
  { transaction_count := .vInt 0, token_count := .vInt 0, nft_count := .vInt 0,
    activity_recency := 0, token_diversity := 0, nft_focus := 0,
    dao_engagement := 0, defi_engagement := 0, avg_tx_value := 0, tx_frequency := 0 }

/-- `WalletClassifier._extract_features`: total thanks to the outer `try`. -/
def extractFeatures (wd : PyVal) : RawFeatures :=
  exceptGetD (extractFeaturesBody wd) defaultRawFeatures

/-- `_rule_based_classification` on the raw feature dict: the comparisons on
the passed-through count fields can raise `TypeError`. -/
def ruleClassifyV (f : RawFeatures) : Except PyErr String := do
  let c1 ← pyLt f.transaction_count (.vInt 5)
  if c1 ∨ f.activity_recency < 1/100 then pure "Dormant/Inactive"
  else do
    let c2 ← pyGt f.nft_count (.vInt 10)
    if c2 ∧ f.nft_focus > 1/2 then pure "NFT Collector"
    else if f.dao_engagement > 1/10 then pure "DAO Member"
    else if f.tx_frequency > 5 ∧ f.avg_tx_value > 1 then pure "Degen Trader"
    else pure "Investor"

/-- `calculate_wallet_scores` on the raw feature dict: the health factor
`transaction_count / 10` can raise `TypeError` on a non-numeric count. -/
def walletScoresV (f : RawFeatures) : Except PyErr (ℚ × ℚ) := do
  let riskScore := f.tx_frequency * 5 + min (f.avg_tx_value * 10) 50
      + (1 - f.token_diversity) * 20 + f.activity_recency * 20
  let txTerm ← pyDiv f.transaction_count (.vInt 10)
  let healthScore := min txTerm 30 + f.token_diversity * 20
      + f.dao_engagement * 30 + (1 - f.activity_recency) * 20
  pure (min (max riskScore 0) 100, min (max healthScore 0) 100)

/-- The confidence adjustments of `classify_wallet` only read derived
(always-float) fields, so they are total on raw features. -/
def confidencePreV (f : RawFeatures) : ConfidenceScores :=
  confAdjust (f.nft_focus > 1/2) (f.dao_engagement > 1/10)
    (f.tx_frequency > 5) (f.activity_recency < 1/100)

/-- The classification-result record assembled by `classify_wallet`
(the `features` entry is carried separately in this embedding). -/
structure Classification where
  wallet_type : String
  confidence : ℚ
  risk_score : ℚ
  health_score : ℚ
deriving DecidableEq

/-- `classify_wallet` on raw wallet data; a `.error` models an uncaught
exception escaping to the caller. -/
def classifyWalletV (wd : PyVal) : Except PyErr Classification := do
  let f := extractFeatures wd
  let walletType ← ruleClassifyV f
  let scores ← walletScoresV f
  let conf := normalizeConf (confidencePreV f)
  let confVal ← match conf.get? walletType with
    | some q => Except.ok q
    | none => Except.error PyErr.keyError
  pure { wallet_type := walletType, confidence := confVal,
         risk_score := scores.1, health_score := scores.2 }

/-! ### Agreement of the two layers on well-typed features

On raw features whose count fields are numeric, the dynamically typed
classifier and scorer coincide with the numeric-level functions. -/

/-- The numeric feature vector corresponding to raw features whose count
fields hold the given numbers. -/
def RawFeatures.asFeatures (f : RawFeatures) (tc tk nf : ℚ) : Features :=
  { transaction_count := tc, token_count := tk, nft_count := nf,
    activity_recency := f.activity_recency, token_diversity := f.token_diversity,
    nft_focus := f.nft_focus, dao_engagement := f.dao_engagement,
    defi_engagement := f.defi_engagement, avg_tx_value := f.avg_tx_value,
    tx_frequency := f.tx_frequency }

/-- Comparing a numeric value against an int literal never raises. -/
lemma pyLt_of_toNum {a : PyVal} {x : ℚ} (h : a.toNum = some x) (n : ℤ) :
    pyLt a (.vInt n) = .ok (decide (x < n)) := by
  cases a <;> simp [PyVal.toNum] at h <;> simp [pyLt, PyVal.toNum, h]

/-- Comparing a numeric value against an int literal never raises. -/
lemma pyGt_of_toNum {a : PyVal} {x : ℚ} (h : a.toNum = some x) (n : ℤ) :
    pyGt a (.vInt n) = .ok (decide ((n : ℚ) < x)) := by
  cases a <;> simp [PyVal.toNum] at h <;> simp [pyGt, PyVal.toNum, h]

/-- Dividing a numeric value by a nonzero int literal never raises. -/
lemma pyDiv_of_toNum {a : PyVal} {x : ℚ} (h : a.toNum = some x) {n : ℤ}
    (hn : (n : ℚ) ≠ 0) : pyDiv a (.vInt n) = .ok (x / n) := by
  cases a <;> simp [PyVal.toNum] at h <;> simp [pyDiv, PyVal.toNum, h, hn]

/-- On numeric counts the dynamic rule classifier agrees with the
numeric-level one. -/
lemma ruleClassifyV_numeric (f : RawFeatures) (tc tk nf : ℚ)
    (h1 : f.transaction_count.toNum = some tc)
    (h3 : f.nft_count.toNum = some nf) :
    ruleClassifyV f = .ok (ruleBasedClassification (f.asFeatures tc tk nf)) := by
  rw [ruleClassifyV, pyLt_of_toNum h1 5, pyGt_of_toNum h3 10, ruleBasedClassification]
  simp only [bind, Except.bind, pure, Except.pure, decide_eq_true_eq,
    RawFeatures.asFeatures]
  push_cast
  split_ifs <;> rfl

/-- On a numeric count the dynamic scorer agrees with the numeric-level
one. -/
lemma walletScoresV_numeric (f : RawFeatures) (tc tk nf : ℚ)
    (h1 : f.transaction_count.toNum = some tc) :
    walletScoresV f = .ok (calculateWalletScores (f.asFeatures tc tk nf)) := by
  rw [walletScoresV]
  rw [pyDiv_of_toNum h1 (by norm_num : ((10 : ℤ) : ℚ) ≠ 0)]
  simp [calculateWalletScores, RawFeatures.asFeatures, bind, Except.bind, pure, Except.pure]

/-! ## Recommendation resolver (classifier.py lines 256-298) -/

/-- The per-category recommendation lists. -/
structure Recommendations where
  dapps : List String
  nfts : List String
  defi : List String
  daos : List String
deriving DecidableEq

/-- `WalletClassifier.get_recommendations`: static lookup on
`classification["wallet_type"]`; every label other than the four named ones
falls into the `else` (Dormant/Inactive) branch. -/
def getRecommendations (classification : Classification) : Recommendations :=
  let walletType := classification.wallet_type
  if walletType = "Investor" then
    { dapps := ["DeBank", "Zapper.fi", "Zerion"], nfts := [],
      defi := ["Aave", "Compound", "Yearn Finance"], daos := ["MakerDAO", "Aave Governance"] }
  else if walletType = "NFT Collector" then
    { dapps := ["OpenSea", "Blur", "Rarible"], nfts := ["Art Blocks", "PROOF Collective", "Azuki"],
      defi := ["NFTfi", "Arcade"], daos := [] }
  else if walletType = "DAO Member" then
    { dapps := ["Snapshot", "Tally", "Boardroom"], nfts := [],
      defi := ["Index Coop", "Balancer"], daos := ["Gitcoin", "Optimism Collective", "ENS DAO"] }
  else if walletType = "Degen Trader" then
    { dapps := ["dYdX", "GMX", "PancakeSwap"], nfts := ["Memeland", "Pudgy Penguins"],
      defi := ["Curve", "Synthetix", "Perpetual Protocol"], daos := [] }
  else
    { dapps := ["Revoke.cash", "Etherscan", "Zapper.fi"], nfts := [],
      defi := ["Lido", "Rocket Pool", "Yearn Finance"], daos := [] }

/-! ## Visualization portfolio (router.py lines 136-335) -/

/-- One entry of the `portfolio` series; `symbol` and `name` keep whatever
value the token dict held. -/
structure PortfolioEntry where
  symbol : PyVal
  value : ℚ
  name : PyVal
  type : String

/-- The body of one token-loop iteration (router.py lines 202-242). -/
def processTokenBody (token : PyVal) : Except PyErr (Option PortfolioEntry) := do
  let inner ← token.get "tokenBalance" (.vStr "0")
  let tokenValue ← token.get "tokenValue" inner
  let decimals ← pyCatch [.valueError, .typeError] 18 (do
      let d ← token.get "tokenDecimal" (.vInt 18)
      pyInt d)
  let value ← pyCatch [.valueError, .typeError, .zeroDivisionError] 0 (do
      let q ← pyFloat tokenValue
      pure (q / (10 : ℚ) ^ decimals))
  if 0 < value then do
    let sym ← token.get "tokenSymbol" (.vStr "Unknown")
    let nm ← token.get "tokenName" (.vStr "Unknown Token")
    pure (some { symbol := sym, value := value, name := nm, type := "ERC20" })
  else
    pure none

/-- One token-loop iteration: the per-token `except ... continue` turns any
raised exception into a skipped token. -/
def processToken (token : PyVal) : Option PortfolioEntry :=
  exceptGetD (processTokenBody token) none

/-- The synthetic aggregate NFT entry (router.py lines 273-278). -/
def nftAggregateEntry (nftCount : ℕ) : PortfolioEntry :=
  { symbol := .vStr "NFTs", value := 1/10,
    name := .vStr ("NFT Collections (" ++ toString nftCount ++ " items)"), type := "NFT" }

/-- The NFT sub-block (router.py lines 245-282): decides whether the
aggregate NFT entry is appended; a raised exception skips the append. -/
def nftAppendBody (wd : PyVal) (erc20Count : ℕ) : Except PyErr (Option PortfolioEntry) := do
  let nfts ← wd.get "nfts" (.vList [])
  let nftCount ← pyLen nfts
  if 0 < nftCount ∧ erc20Count < 3 then
    pure (some (nftAggregateEntry nftCount))
  else
    pure none

/-- The token/NFT section of `prepare_visualization_data`
(router.py lines 195-286): a raised exception leaves the portfolio empty. -/
def portfolioSection (wd : PyVal) : Except PyErr (List PortfolioEntry) := do
  let tokenBalances ← wd.get "token_balances" (.vList [])
  let toks ← pyIter tokenBalances
  let entries := toks.filterMap processToken
  let entries := match nftAppendBody wd entries.length with
    | .ok (some e) => entries ++ [e]
    | _ => entries
  pure entries

/-- The default entry synthesized for an empty portfolio
(router.py lines 313-317). -/
def ethDefaultEntry : PortfolioEntry :=
  { symbol := .vStr "ETH", value := 1/10, name := .vStr "Ethereum", type := "ERC20" }

/-- `if not wallet_data or not isinstance(wallet_data, dict)`: the early
return of `prepare_visualization_data` (router.py lines 156-158). -/
def walletDataTruthy : PyVal → Bool
  | .vDict es => !es.isEmpty
  | _ => false

/-- The `portfolio` series of `prepare_visualization_data`: token entries,
optional NFT aggregate, and the ETH default when the result is empty.  The
early return for falsy/non-dict input yields an empty portfolio. -/
def preparePortfolio (wd : PyVal) : List PortfolioEntry :=
  if walletDataTruthy wd then
    let entries := exceptGetD (portfolioSection wd) []
    if entries.isEmpty then [ethDefaultEntry] else entries
  else
    []

/-! ## The `/analyze` route (router.py lines 44-133)

The fetch collaborator's outcome is supplied as an argument: `none` models
`get_wallet_data` raising.  The persona-bio fields (produced by the external
text-generation collaborator) are not modelled; all claim-relevant fields
are. -/

/-- The substitute wallet record of the inner `except` branch
(router.py lines 72-80). -/
def defaultWalletData (address : String) : PyVal :=
  .vDict [("address", .vStr address), ("transaction_count", .vInt 0),
          ("token_count", .vInt 0), ("nft_count", .vInt 0),
          ("days_since_last_transaction", .vInt 365),
          ("defi_interaction_count", .vInt 0), ("dao_vote_count", .vInt 0)]

/-- The substitute classification of the inner `except` branch
(router.py lines 81-86). -/
def defaultClassification : Classification :=
  { wallet_type := "Unknown", confidence := 0, risk_score := 25, health_score := 50 }

/-- The substitute recommendations of the inner `except` branch
(router.py lines 88-93). -/
def routerDefaultRecommendations : Recommendations :=
  { dapps := ["Etherscan", "Revoke.cash", "Zapper.fi"], nfts := [],
    defi := ["Uniswap", "Aave"], daos := [] }

/-- The claim-relevant fields of the `WalletResponse` model. -/
structure WalletResponse where
  address : String
  wallet_type : String
  confidence : ℚ
  risk_score : ℚ
  health_score : ℚ
  recommendations : Recommendations
  portfolio : List PortfolioEntry

/-- The region inside the outer `try` of the `/analyze` handler
(router.py lines 55-122): address validation (an `.error 400` models
`raise HTTPException(status_code=400)`), the guarded fetch/classify step
with its defaults, the unconditional recomputation of the recommendations
at line 102, and the response construction. -/
def analyzeWalletBody (address : String) (fetch : Option PyVal) :
    Except ℕ WalletResponse :=
  if ¬(address.data.take 2 = ['0', 'x'] ∧ address.length = 42) then .error 400
  else
    let step : PyVal × Classification × Recommendations :=
      match fetch with
      | some wd =>
        match classifyWalletV wd with
        | .ok c => (wd, c, getRecommendations c)
        | .error _ => (defaultWalletData address, defaultClassification,
                       routerDefaultRecommendations)
      | none => (defaultWalletData address, defaultClassification,
                 routerDefaultRecommendations)
    let wd := step.1
    let classification := step.2.1
    let recommendations := getRecommendations classification
    .ok { address := address, wallet_type := classification.wallet_type,
          confidence := classification.confidence,
          risk_score := classification.risk_score,
          health_score := classification.health_score,
          recommendations := recommendations,
          portfolio := preparePortfolio wd }

/-- The `/analyze` handler: its `except Exception` (router.py lines 124-133)
catches every exception raised in the body — the 400 `HTTPException`
included — and re-raises `HTTPException(status_code=500)`. -/
def analyzeWallet (address : String) (fetch : Option PyVal) :
    Except ℕ WalletResponse :=
  match analyzeWalletBody address fetch with
  | .ok r => .ok r
  | .error _ => .error 500

/-! ## Totality of the core on malformed input (C7) -/

/-- Wallet data whose `transaction_count` is a non-numeric string. -/
def malformedCountWallet : PyVal := .vDict [("transaction_count", .vStr "abc")]

/-- Simp set for evaluating the embedded Python operations on concrete
values. -/
lemma extractFeatures_malformedCount :
    extractFeatures malformedCountWallet
      = { transaction_count := .vStr "abc", token_count := .vInt 0, nft_count := .vInt 0,
          activity_recency := 1/366, token_diversity := 0, nft_focus := 0,
          dao_engagement := 0, defi_engagement := 0, avg_tx_value := 0,
          tx_frequency := 0 } := by
  have hbody : extractFeaturesBody malformedCountWallet
      = .ok { transaction_count := .vStr "abc", token_count := .vInt 0, nft_count := .vInt 0,
              activity_recency := 1/366, token_diversity := 0, nft_focus := 0,
              dao_engagement := 0, defi_engagement := 0, avg_tx_value := 0,
              tx_frequency := 0 } := by
    simp [extractFeaturesBody, malformedCountWallet, PyVal.get, dictLookup, pyAdd, pyDiv,
      pyMax, PyVal.toNum, pyCatch, avgTxValueBody, avgTxStep, txFrequencyBody, pyIter,
      pyLen, mapExcept, pyFloat, exceptGetD, bind, Except.bind, pure, Except.pure]
    norm_num
  simp [extractFeatures, hbody, exceptGetD]

/-- **C7.** A counterexample to totality with per-field defaulting: a string
`transaction_count` is passed through by `_extract_features` instead of
degrading to the documented default `0`, and both the rule classifier and
the score calculation then raise `TypeError` on it, as does
`classify_wallet`. -/
theorem malformed_count_raises_type_error :
    (extractFeatures malformedCountWallet).transaction_count = .vStr "abc"
    ∧ (extractFeatures malformedCountWallet).transaction_count ≠ .vInt 0
    ∧ ruleClassifyV (extractFeatures malformedCountWallet) = .error .typeError
    ∧ walletScoresV (extractFeatures malformedCountWallet) = .error .typeError
    ∧ classifyWalletV malformedCountWallet = .error .typeError := by
  have heval := extractFeatures_malformedCount
  refine ⟨by rw [heval], by rw [heval]; simp, ?_, ?_, ?_⟩
  · rw [heval]
    simp [ruleClassifyV, pyLt, PyVal.toNum, bind, Except.bind]
  · rw [heval]
    simp [walletScoresV, pyDiv, PyVal.toNum, bind, Except.bind]
  · simp [classifyWalletV, heval, ruleClassifyV, pyLt, PyVal.toNum, bind, Except.bind]

/-! ## The transaction-frequency feature (C4) -/

/-- A transaction dict carrying only a timestamp. -/
def mkTimestampTx (t : ℤ) : PyVal := .vDict [("timeStamp", .vInt t)]

/-- Wallet data whose transactions list carries the given timestamps
(most-recent-first, as the fetcher supplies them). -/
def mkTxWallet (ts : List ℤ) : PyVal :=
  .vDict [("transactions", .vList (ts.map mkTimestampTx))]

/-- A record whose `transaction_count` field (100) differs from the length
of its `transactions` list (2 transactions spanning exactly one day). -/
def txCountMismatchWallet : PyVal :=
  .vDict [("transaction_count", .vInt 100),
          ("transactions", .vList [mkTimestampTx 86400, mkTimestampTx 0])]

/-- Summing a list of zeros yields the accumulator. -/
lemma foldl_add_replicate_zero (n : ℕ) (a : ℚ) :
    (List.replicate n (0 : ℚ)).foldl (· + ·) a = a := by
  induction n generalizing a with
  | zero => rfl
  | succ k ih => simp [List.replicate, ih]

/-- The value comprehension over timestamp-only transactions is all zeros. -/
lemma mapExcept_avgTxStep_timestamps (ts : List ℤ) :
    mapExcept avgTxStep (ts.map mkTimestampTx) = .ok (List.replicate ts.length (0 : ℚ)) := by
  induction ts with
  | nil => rfl
  | cons t rest ih =>
    simp [mapExcept, avgTxStep, mkTimestampTx, PyVal.get, dictLookup, pyFloat,
      bind, Except.bind, pure, Except.pure, ih, List.replicate]

/-- The average transaction value over timestamp-only transactions is 0. -/
lemma avgTxValueBody_timestamps (ts : List ℤ) :
    avgTxValueBody (.vList (ts.map mkTimestampTx)) = .ok 0 := by
  simp [avgTxValueBody, pyIter, mapExcept_avgTxStep_timestamps, bind, Except.bind,
    pure, Except.pure, foldl_add_replicate_zero]

/-- `obj[0]` on a non-empty list is its head. -/
lemma pyIndex_vList_zero {xs : List PyVal} (h : xs ≠ []) :
    pyIndex (.vList xs) 0 = .ok xs.headI := by
  cases xs with
  | nil => exact absurd rfl h
  | cons a l => simp [pyIndex, List.headI]

/-- `obj[-1]` on a non-empty list is its last element. -/
lemma pyIndex_vList_neg_one {xs : List PyVal} (h : xs ≠ []) :
    pyIndex (.vList xs) (-1) = .ok xs.getLastI := by
  have hlen : 1 ≤ xs.length := List.length_pos.mpr h
  have htn : ((-1 : ℤ) + xs.length).toNat = xs.length - 1 := by omega
  have hget : xs.get? (xs.length - 1) = some (xs.getLast h) := by
    rw [List.get?_eq_getElem?, ← List.getLast?_eq_getElem?]
    exact List.getLast?_eq_getLast_of_ne_nil h
  have hlast : xs.getLastI = xs.getLast h := by
    rw [List.getLastI_eq_getLast?, List.getLast?_eq_getLast_of_ne_nil h, Option.iget_some]
  simp only [pyIndex]
  rw [if_pos (by norm_num : (-1 : ℤ) < 0)]
  rw [if_neg (by omega : ¬((-1 : ℤ) + xs.length < 0))]
  rw [htn, hget, hlast]

/-- `headI` commutes with `map` on non-empty lists. -/
lemma headI_map_timestamps (ts : List ℤ) (h : ts ≠ []) :
    (ts.map mkTimestampTx).headI = mkTimestampTx ts.headI := by
  cases ts with
  | nil => exact absurd rfl h
  | cons a l => simp [List.headI]

/-- `getLastI` commutes with `map` on non-empty lists. -/
lemma getLastI_map_timestamps (ts : List ℤ) (h : ts ≠ []) :
    (ts.map mkTimestampTx).getLastI = mkTimestampTx ts.getLastI := by
  have h' : ts.map mkTimestampTx ≠ [] := by simp [h]
  rw [List.getLastI_eq_getLast?, List.getLastI_eq_getLast?, List.getLast?_map]
  rw [List.getLast?_eq_getLast_of_ne_nil h, Option.map_some', Option.iget_some,
    Option.iget_some]

/-- The frequency block on a list of timestamp-only transactions: length
divided by the clamped day span between the first and last list elements. -/
lemma txFrequencyBody_timestamps (ts : List ℤ) :
    txFrequencyBody (.vList (ts.map mkTimestampTx)) =
      .ok (if 2 ≤ ts.length then
        (ts.length : ℚ) / max (((ts.headI - ts.getLastI : ℤ) : ℚ) / 86400) 1
      else 0) := by
  by_cases h2 : 2 ≤ ts.length
  · have hne : ts ≠ [] := by
      intro h
      rw [h] at h2
      simp at h2
    have hne' : ts.map mkTimestampTx ≠ [] := by simp [hne]
    simp [txFrequencyBody, pyLen, bind, Except.bind, pure, Except.pure, h2,
      pyIndex_vList_neg_one hne', pyIndex_vList_zero hne',
      getLastI_map_timestamps ts hne, headI_map_timestamps ts hne,
      mkTimestampTx, PyVal.get, dictLookup, pyInt]
  · simp [txFrequencyBody, pyLen, bind, Except.bind, pure, Except.pure, h2]

/-- **C4 (counterexample).** On a record with `transaction_count = 100` but
only 2 transactions (spanning exactly one day, latest first), the extracted
`tx_frequency` is 2 — the length of the transactions list — not the
`transaction_count` field divided by the day span (which would be 100). -/
theorem tx_frequency_ignores_count_field :
    (extractFeatures txCountMismatchWallet).transaction_count = .vInt 100
    ∧ (extractFeatures txCountMismatchWallet).tx_frequency = 2
    ∧ (extractFeatures txCountMismatchWallet).tx_frequency
        ≠ (100 : ℚ) / max (((86400 : ℚ) - 0) / 86400) 1 := by
  have heval : extractFeatures txCountMismatchWallet
      = { transaction_count := .vInt 100, token_count := .vInt 0, nft_count := .vInt 0,
          activity_recency := 1/366, token_diversity := 0, nft_focus := 0,
          dao_engagement := 0, defi_engagement := 0, avg_tx_value := 0,
          tx_frequency := 2 } := by
    have hbody : extractFeaturesBody txCountMismatchWallet
        = .ok { transaction_count := .vInt 100, token_count := .vInt 0, nft_count := .vInt 0,
                activity_recency := 1/366, token_diversity := 0, nft_focus := 0,
                dao_engagement := 0, defi_engagement := 0, avg_tx_value := 0,
                tx_frequency := 2 } := by
      simp [extractFeaturesBody, txCountMismatchWallet, mkTimestampTx, PyVal.get,
        dictLookup, pyAdd, pyDiv, pyMax, PyVal.toNum, pyCatch, avgTxValueBody, avgTxStep,
        txFrequencyBody, pyIter, pyLen, pyIndex, pyInt, mapExcept, pyFloat, exceptGetD,
        bind, Except.bind, pure, Except.pure]
      norm_num
    simp [extractFeatures, hbody, exceptGetD]
  rw [heval]
  refine ⟨rfl, rfl, by norm_num⟩

/-- **C4 (amended).** The extracted `tx_frequency` equals the **length of
the transactions list** divided by
`max((first-element timestamp − last-element timestamp) / 86400, 1)`,
and 0 when the list has fewer than 2 transactions. -/
theorem tx_frequency_formula (ts : List ℤ) :
    (extractFeatures (mkTxWallet ts)).tx_frequency =
      if 2 ≤ ts.length then
        (ts.length : ℚ) / max (((ts.headI - ts.getLastI : ℤ) : ℚ) / 86400) 1
      else 0 := by
  have hfreq := txFrequencyBody_timestamps ts
  simp [extractFeatures, extractFeaturesBody, mkTxWallet, PyVal.get, dictLookup, pyAdd,
    pyDiv, pyMax, PyVal.toNum, pyCatch, avgTxValueBody_timestamps, hfreq, pyIter,
    exceptGetD, bind, Except.bind, pure, Except.pure]
  norm_num

/-! ## Address validation and the failure defaults (C8, C5) -/

/-- A 41-character address: `0x`-prefixed but one hex digit short. -/
def shortAddress : String := "0xabcdefabcdefabcdefabcdefabcdefabcdefabc"

/-- A well-formed 42-character `0x`-prefixed address. -/
def validAddress : String := "0x1234567890123456789012345678901234567890"

/-- **C8.** The handler's own validation raises the 400 client error before
any core computation, but the surrounding `except Exception` converts it
into a 500 server error; a well-formed address is accepted. -/
theorem invalid_address_rejected_as_500 :
    (∀ fetch, analyzeWalletBody shortAddress fetch = .error 400)
    ∧ (∀ fetch, analyzeWallet shortAddress fetch = .error 500)
    ∧ (400 : ℕ) ≠ 500
    ∧ (analyzeWallet validAddress none).isOk = true :=
  ⟨fun _ => rfl, fun _ => rfl, by decide, rfl⟩

/-- The recommendations actually attached to a failure response: the
Dormant/Inactive table selected by `get_recommendations` for the label
"Unknown". -/
def unknownLabelRecommendations : Recommendations :=
  { dapps := ["Revoke.cash", "Etherscan", "Zapper.fi"], nfts := [],
    defi := ["Lido", "Rocket Pool", "Yearn Finance"], daos := [] }

/-- **C5 (counterexample).** When the fetch step fails on a valid address,
the response carries the default classification but **not** the default
recommendation set of router.py lines 88-93: line 102 recomputes the
recommendations from the "Unknown" label, yielding the Dormant/Inactive
table instead. -/
theorem failure_defaults_recommendations_overwritten :
    analyzeWallet validAddress none
      = .ok { address := validAddress, wallet_type := "Unknown", confidence := 0,
              risk_score := 25, health_score := 50,
              recommendations := unknownLabelRecommendations,
              portfolio := [ethDefaultEntry] }
    ∧ unknownLabelRecommendations ≠ routerDefaultRecommendations :=
  ⟨rfl, by decide⟩

/-- The fetch/classify step failed: either `get_wallet_data` raised, or
`classify_wallet` raised on the fetched data. -/
def fetchOrClassifyFails (fetch : Option PyVal) : Prop :=
  ∀ wd, fetch = some wd → (classifyWalletV wd).isOk = false

/-- **C5 (amended).** Whenever the data-fetch or classification step fails,
the response carries the default classification
`{Unknown, 0.0, 25.0, 50.0}`, while its recommendations are recomputed at
router.py line 102 from the "Unknown" label and are therefore the
Dormant/Inactive table, not the default set of lines 88-93. -/
theorem failure_defaults_in_response (address : String) (fetch : Option PyVal)
    (hvalid : address.data.take 2 = ['0', 'x'] ∧ address.length = 42)
    (hfail : fetchOrClassifyFails fetch) :
    analyzeWallet address fetch
      = .ok { address := address, wallet_type := "Unknown", confidence := 0,
              risk_score := 25, health_score := 50,
              recommendations := unknownLabelRecommendations,
              portfolio := [ethDefaultEntry] } := by
  have hbody : analyzeWalletBody address fetch
      = .ok { address := address, wallet_type := "Unknown", confidence := 0,
              risk_score := 25, health_score := 50,
              recommendations := unknownLabelRecommendations,
              portfolio := [ethDefaultEntry] } := by
    unfold analyzeWalletBody
    rw [if_neg (not_not_intro hvalid)]
    cases fetch with
    | none => rfl
    | some wd =>
      have hf := hfail wd rfl
      cases hc : classifyWalletV wd with
      | ok c => rw [hc] at hf; simp [Except.isOk, Except.toBool] at hf
      | error e =>
        simp [hc]
        exact ⟨rfl, rfl, rfl, rfl, rfl, rfl⟩
  unfold analyzeWallet
  rw [hbody]

/-- Witness for the amended C5: the concrete valid address with a failed
fetch produces exactly the default classification with the
Dormant/Inactive recommendation table. -/
theorem failure_defaults_in_response_witness :
    analyzeWallet validAddress none
      = .ok { address := validAddress, wallet_type := "Unknown", confidence := 0,
              risk_score := 25, health_score := 50,
              recommendations := unknownLabelRecommendations,
              portfolio := [ethDefaultEntry] } :=
  failure_defaults_in_response validAddress none ⟨by decide, by decide⟩
    (fun wd h => Option.noConfusion h)

/-! ## The visualization portfolio (C6) -/

/-- A token balance as supplied by the fetcher. -/
structure TokenSpec where
  symbol : String
  name : String
  rawValue : ℤ
  decimals : ℤ

/-- The decoded value of a token: raw value over `10 ^ decimals`. -/
def TokenSpec.decoded (t : TokenSpec) : ℚ := (t.rawValue : ℚ) / (10 : ℚ) ^ t.decimals

/-- The portfolio entry a positive-valued token produces. -/
def TokenSpec.entry (t : TokenSpec) : PortfolioEntry :=
  { symbol := .vStr t.symbol, value := t.decoded, name := .vStr t.name, type := "ERC20" }

/-- The Etherscan-style token dict for a token balance. -/
def TokenSpec.toPyVal (t : TokenSpec) : PyVal :=
  .vDict [("tokenSymbol", .vStr t.symbol), ("tokenName", .vStr t.name),
          ("tokenBalance", .vInt t.rawValue), ("tokenDecimal", .vInt t.decimals)]

/-- An NFT dict with its collection name. -/
def mkNft (collection : String) : PyVal :=
  .vDict [("contract", .vDict [("name", .vStr collection)])]

/-- Wallet data carrying the given token balances and NFTs. -/
def mkVisWallet (toks nfts : List PyVal) : PyVal :=
  .vDict [("address", .vStr "0xwallet"), ("token_balances", .vList toks),
          ("nfts", .vList nfts)]

/-- The ERC20 entries the spec expects: one per token with strictly positive
decoded value, zero-value tokens excluded, in order. -/
def erc20Entries (toks : List TokenSpec) : List PortfolioEntry :=
  toks.filterMap fun t => if 0 < t.decoded then some t.entry else none

/-- One token-loop iteration on a well-formed token dict. -/
lemma processToken_tokenSpec (t : TokenSpec) :
    processToken t.toPyVal = if 0 < t.decoded then some t.entry else none := by
  by_cases h : 0 < t.decoded <;>
  · rw [TokenSpec.decoded] at h
    simp [processToken, processTokenBody, TokenSpec.toPyVal, TokenSpec.decoded,
      TokenSpec.entry, PyVal.get, dictLookup, pyCatch, pyInt, pyFloat, exceptGetD,
      bind, Except.bind, pure, Except.pure, h]

/-- The token loop on well-formed token dicts produces exactly the
positive-valued entries. -/
lemma filterMap_processToken (toks : List TokenSpec) :
    List.filterMap (processToken ∘ TokenSpec.toPyVal) toks = erc20Entries toks := by
  rw [erc20Entries]
  congr 1
  funext t
  exact processToken_tokenSpec t

/-- The NFT sub-block decision on well-formed wallet data. -/
lemma nftAppendBody_mkVisWallet (toks nfts : List PyVal) (erc20Count : ℕ) :
    nftAppendBody (mkVisWallet toks nfts) erc20Count
      = .ok (if 0 < nfts.length ∧ erc20Count < 3 then
               some (nftAggregateEntry nfts.length) else none) := by
  by_cases h : 0 < nfts.length ∧ erc20Count < 3 <;>
    simp [nftAppendBody, mkVisWallet, PyVal.get, dictLookup, pyLen,
      bind, Except.bind, pure, Except.pure, h]

/-- The token/NFT section on well-formed wallet data. -/
lemma portfolioSection_mkVisWallet (toks : List TokenSpec) (nfts : List String) :
    portfolioSection (mkVisWallet (toks.map TokenSpec.toPyVal) (nfts.map mkNft))
      = .ok (erc20Entries toks ++
          (if 0 < nfts.length ∧ (erc20Entries toks).length < 3 then
            [nftAggregateEntry nfts.length] else [])) := by
  have happend := nftAppendBody_mkVisWallet (toks.map TokenSpec.toPyVal) (nfts.map mkNft)
    (erc20Entries toks).length
  rw [List.length_map] at happend
  have hget : PyVal.get (mkVisWallet (toks.map TokenSpec.toPyVal) (nfts.map mkNft))
      "token_balances" (.vList []) = .ok (.vList (toks.map TokenSpec.toPyVal)) := rfl
  by_cases h : 0 < nfts.length ∧ (erc20Entries toks).length < 3 <;>
  · simp only [portfolioSection, bind, Except.bind, pure, Except.pure, hget, pyIter,
      List.filterMap_map, filterMap_processToken, happend, h, if_true, if_false]
    simp [h]

/-- **C6.** The portfolio contains one entry per token with strictly
positive decoded value (zero-value tokens excluded); when fewer than 3 such
ERC20 entries exist and at least one NFT is present, exactly one synthetic
aggregate NFT entry is appended; and a record with zero token balances and
zero NFTs yields exactly the default ETH entry. -/
theorem portfolio_composition (toks : List TokenSpec) (nfts : List String) :
    preparePortfolio (mkVisWallet (toks.map TokenSpec.toPyVal) (nfts.map mkNft))
      = if (erc20Entries toks).isEmpty ∧ nfts = [] then [ethDefaultEntry]
        else erc20Entries toks ++
          (if (erc20Entries toks).length < 3 ∧ nfts ≠ [] then
            [nftAggregateEntry nfts.length] else []) := by
  rw [preparePortfolio]
  rw [if_pos (show walletDataTruthy (mkVisWallet (toks.map TokenSpec.toPyVal)
      (nfts.map mkNft)) = true from rfl)]
  rw [portfolioSection_mkVisWallet]
  by_cases h1 : erc20Entries toks = [] <;> by_cases h2 : nfts = []
  · subst h2
    simp [exceptGetD, h1]
  · have h2' : 0 < nfts.length := List.length_pos.mpr h2
    simp [exceptGetD, h1, h2, h2']
  · subst h2
    simp [exceptGetD, h1]
  · have h2' : 0 < nfts.length := List.length_pos.mpr h2
    have h1' : ¬(erc20Entries toks).isEmpty := by simp [List.isEmpty_iff, h1]
    by_cases h3 : (erc20Entries toks).length < 3 <;>
      simp [exceptGetD, h1, h1', h2, h2', h3, List.isEmpty_iff, List.append_eq_nil]

end WalletPersona
